import Mathlib

/-!
Verification of the Node Gateway of the Sentinel VPS control plane.

The definitions below are a shallow embedding of the gateway source:
  - the connection registry, liveness bookkeeping and heartbeat sweep of
    `src/websocket/server.js`;
  - the inbound message router of `src/websocket/server.js` together with the
    frame handlers of `src/websocket/handlers.js`;
  - the command correlation engine of `src/services/command-service.js`.

Timestamps are naturals (milliseconds); JavaScript opaque values (command
parameters, results) are carried as strings; the external Mongo store is an
explicit list of records threaded through the operations.  The single threaded
JavaScript event loop is modelled by interleaving discrete events (timer
firings, inbound frames) through explicit step functions.
-/

namespace VPS

/-! ## Connection registry (src/websocket/server.js) -/

/-- Ready state of a `ws` connection handle.  Only `rsOpen` (the `WebSocket.OPEN`
constant) matters to the gateway code. -/
inductive ReadyState
  | connecting
  | rsOpen
  | closing
  | rsClosed
deriving DecidableEq

/-- One value of the `connectedNodes` map of server.js: the connection handle
(`ws`, here its ready state plus a flag saying whether `ws.send` throws) and the
`lastSeen` activity timestamp. -/
structure Conn where
  readyState : ReadyState
  sendFails : Bool
  lastSeen : Nat
deriving DecidableEq

/-- The in-memory `connectedNodes` map (nodeId to connection entry).  Keys are
unique, as in a JavaScript `Map`. -/
abbrev Registry := List (String × Conn)

/-- `connectedNodes.get(nodeId)`. -/
def regGet : Registry → String → Option Conn
  | [], _ => none
  | (k, v) :: rest, nodeId => if k == nodeId then some v else regGet rest nodeId

/-- server.js 233-236: a node is connected when it has a registry entry whose
handle is in the OPEN ready state. -/
def isNodeConnected (reg : Registry) (nodeId : String) : Bool :=
  match regGet reg nodeId with
  | none => false
  | some node => node.readyState == ReadyState.rsOpen

/-- The outbound command frame built by command-service.js 34-40. -/
structure CommandFrame where
  type : String := "command"
  commandId : String
  command : String
  parameters : String
  timestamp : Nat
deriving DecidableEq

/-- server.js 169-187: `sendToNode` returns false when the entry is absent or
the handle is not OPEN; a throwing `ws.send` is caught and also yields false.
The message content never influences the outcome. -/
def sendToNode (reg : Registry) (nodeId : String) (_message : CommandFrame) : Bool :=
  match regGet reg nodeId with
  | none => false
  | some node =>
    if node.readyState == ReadyState.rsOpen then !node.sendFails else false

/-- One element of the list returned by `getConnectedNodes` (server.js 216-228). -/
structure NodeInfo where
  nodeId : String
  lastSeen : Nat
  connected : Bool
deriving DecidableEq

/-- server.js 216-228: every registry entry is listed, with a `connected` flag
computed from the ready state of its handle. -/
def getConnectedNodes (reg : Registry) : List NodeInfo :=
  reg.map (fun p =>
    { nodeId := p.1, lastSeen := p.2.lastSeen,
      connected := p.2.readyState == ReadyState.rsOpen })

/-- The exact condition under which `sendToNode` succeeds for a node: entry
present, handle OPEN, and the write does not throw. -/
def transmitOk (reg : Registry) (nodeId : String) : Bool :=
  match regGet reg nodeId with
  | none => false
  | some node => node.readyState == ReadyState.rsOpen && !node.sendFails

/-- server.js 82-86: refresh the `lastSeen` timestamp of the entry of `nodeId`,
when one exists. -/
def touch (reg : Registry) (nodeId : String) (now : Nat) : Registry :=
  reg.map (fun p => if p.1 == nodeId then (p.1, { p.2 with lastSeen := now }) else p)

/-! ## Heartbeat monitor (src/websocket/server.js 133-157) -/

/-- A `ws.close(code, reason)` call issued by the sweep. -/
structure CloseEvt where
  nodeId : String
  code : Nat
  reason : String
deriving DecidableEq

/-- An external `Node.findOneAndUpdate` issued by the gateway. -/
structure NodeDbUpdate where
  nodeId : String
  status : String
  lastSeen : Nat
deriving DecidableEq

/-- Result of one heartbeat sweep: the surviving registry, the close calls
issued, and the node-record updates issued. -/
structure SweepResult where
  registry : Registry
  closes : List CloseEvt
  updates : List NodeDbUpdate
deriving DecidableEq

/-- server.js 133-157: for each entry with `now - lastSeen > heartbeatTimeout`,
close the handle (code 1001, reason "Heartbeat timeout") when it is OPEN,
delete the entry, and mark the node record offline with
`lastSeen = new Date(node.lastSeen)` (the entry value, not the sweep instant).
Fresh entries are left untouched.  Nat subtraction truncates at zero, matching
the JavaScript comparison for timestamps in the past or the future. -/
def heartbeatSweep (now timeoutMs : Nat) : Registry → SweepResult
  | [] => { registry := [], closes := [], updates := [] }
  | (nodeId, node) :: rest =>
    let r := heartbeatSweep now timeoutMs rest
    if timeoutMs < now - node.lastSeen then
      { registry := r.registry,
        closes :=
          (if node.readyState == ReadyState.rsOpen then
            [{ nodeId := nodeId, code := 1001, reason := "Heartbeat timeout" }]
          else []) ++ r.closes,
        updates :=
          { nodeId := nodeId, status := "offline", lastSeen := node.lastSeen } :: r.updates }
    else
      { registry := (nodeId, node) :: r.registry, closes := r.closes, updates := r.updates }

/-! ## Message router (src/websocket/server.js 78-102, src/websocket/handlers.js) -/

/-- A structurally parsed inbound frame: the declared `type` tag plus the fields
the modelled handlers read.  An unparsable frame (JSON.parse throws) is
represented as `none` at the router boundary. -/
structure InMsg where
  type : String
  ip : Option String := none
  name : Option String := none
  commandId : Option String := none
  success : Bool := false
  result : Option String := none
  error : Option String := none
deriving DecidableEq

/-- The keys of the handler table exported by handlers.js 202-209. -/
def knownTypes : List String :=
  ["heartbeat", "log", "command_response", "status", "register", "pong"]

/-- The registration acknowledgement object built by handlers.js 182 / 185. -/
structure RegConfirmation where
  type : String
  success : Bool
  timestamp : Option Nat
  error : Option String
deriving DecidableEq

/-- handlers.js 160-187: upsert the node record, then build the confirmation.
On a database failure (`dbOk = false`) the catch branch returns a confirmation
with `success: false` and an error message but no timestamp.  The value is
RETURNED to the dispatcher, which discards it (see `processMessage`). -/
def register (_nodeId : String) (_data : InMsg) (now : Nat) (dbOk : Bool)
    (dbErr : String) : RegConfirmation :=
  if dbOk then
    { type := "register_confirmation", success := true, timestamp := some now, error := none }
  else
    { type := "register_confirmation", success := false, timestamp := none, error := some dbErr }

/-- How the router disposed of one inbound frame. -/
inductive Outcome
  | dispatched
  | droppedUnknown
  | droppedInvalid
deriving DecidableEq

/-- Observable result of running the message handler of server.js 78-102 on one
inbound frame. -/
structure MsgResult where
  registry : Registry
  sentFrames : List RegConfirmation
  outcome : Outcome
  connectionClosed : Bool
deriving DecidableEq

/-- server.js 78-102, the per-message handler.
`none` models data on which `JSON.parse` throws: the catch at line 99 logs and
returns, before the `lastSeen` update at lines 82-86 ever runs, and the
connection stays open.  For parsed data the entry is touched first, then the
frame is dispatched through the handler table when the type is known
(line 94-95) and logged and dropped otherwise (line 97).  Line 95 awaits the
handler and DISCARDS its return value, and no handler writes to the socket, so
no frame is sent back while processing an inbound message: in particular the
`register_confirmation` built by `register` never reaches the node, which is
why `sentFrames` is empty on every path. -/
def processMessage (reg : Registry) (nodeId : String) (now : Nat)
    (raw : Option InMsg) : MsgResult :=
  match raw with
  | none =>
    { registry := reg, sentFrames := [], outcome := Outcome.droppedInvalid,
      connectionClosed := false }
  | some data =>
    if knownTypes.contains data.type then
      { registry := touch reg nodeId now, sentFrames := [],
        outcome := Outcome.dispatched, connectionClosed := false }
    else
      { registry := touch reg nodeId now, sentFrames := [],
        outcome := Outcome.droppedUnknown, connectionClosed := false }

/-! ## Command records (src/models/command.js) -/

/-- The `status` enumeration of the Command schema. -/
inductive CmdStatus
  | pending
  | sent
  | successful
  | failed
  | timeout
deriving DecidableEq

/-- A persisted Command document, restricted to the fields the gateway reads or
writes. -/
structure CommandRec where
  commandId : String
  nodeId : String
  type : String
  parameters : String
  initiatedBy : String
  status : CmdStatus
  sent : Option Nat := none
  completed : Option Nat := none
  result : Option String := none
  error : Option String := none
deriving DecidableEq

/-- A Mongoose `save` / `findOneAndUpdate` against the unique `commandId` key:
update the existing document, or insert a new one. -/
def saveCommand (commands : List CommandRec) (c : CommandRec) : List CommandRec :=
  if commands.any (fun rc => rc.commandId == c.commandId) then
    commands.map (fun rc => if rc.commandId == c.commandId then c else rc)
  else
    commands ++ [c]

/-! ## Command correlation engine (src/services/command-service.js) -/

/-- The errors `sendCommand` throws before any wait begins. -/
inductive SendError
  | nodeNotConnected (nodeId : String)
  | commandSendFailed (nodeId : String)
deriving DecidableEq

/-- The `pending` record created at command-service.js 22-29. -/
def pendingRec (cid nodeId ty params initiator : String) : CommandRec :=
  { commandId := cid, nodeId := nodeId, type := ty, parameters := params,
    initiatedBy := initiator, status := CmdStatus.pending }

/-- The record after the failed-transmission update at command-service.js 45-49. -/
def failedRec (cid nodeId ty params initiator : String) : CommandRec :=
  { pendingRec cid nodeId ty params initiator with
    status := CmdStatus.failed,
    error := some "Failed to send command: Node disconnected" }

/-- The record after the successful-transmission update at
command-service.js 54-57. -/
def sentRec (cid nodeId ty params initiator : String) (now : Nat) : CommandRec :=
  { pendingRec cid nodeId ty params initiator with
    status := CmdStatus.sent, sent := some now }

/-- command-service.js 12-59, the synchronous part of `sendCommand` (up to the
point where it either returns the command descriptor or starts waiting):
reject up front when the registry reports no connection (line 14-16, before any
record is created); otherwise persist a `pending` record, attempt transmission,
and persist the `failed` or `sent` update accordingly.  `cid` stands for the
freshly generated uuid, `now` for the send instant. -/
def sendCommandCore (reg : Registry) (commands : List CommandRec)
    (nodeId ty params initiator cid : String) (now : Nat) :
    List CommandRec × Except SendError CommandRec :=
  if isNodeConnected reg nodeId = false then
    (commands, Except.error (SendError.nodeNotConnected nodeId))
  else if sendToNode reg nodeId
      { commandId := cid, command := ty, parameters := params, timestamp := now } = false then
    (saveCommand (saveCommand commands (pendingRec cid nodeId ty params initiator))
       (failedRec cid nodeId ty params initiator),
     Except.error (SendError.commandSendFailed nodeId))
  else
    (saveCommand (saveCommand commands (pendingRec cid nodeId ty params initiator))
       (sentRec cid nodeId ty params initiator now),
     Except.ok (sentRec cid nodeId ty params initiator now))

/-- Whether a settled per-node issuance counts as fulfilled. -/
def isOkB : Except SendError CommandRec → Bool
  | Except.ok _ => true
  | Except.error _ => false

/-- The aggregate returned by `broadcastCommand`.  `failureCount := none` models
the early return at command-service.js 103-105, whose object literal carries no
`failureCount` property at all. -/
structure BroadcastResult where
  sent : Nat
  total : Nat
  failureCount : Option Nat
deriving DecidableEq

/-- One per-node issuance of the broadcast fan-out (command-service.js 108-112):
a non-waiting `sendCommand`, threading the command store and counting
fulfilled settlements. -/
def broadcastStep (reg : Registry) (ty params initiator : String) (now : Nat)
    (acc : List CommandRec × Nat) (p : NodeInfo × String) : List CommandRec × Nat :=
  let r := sendCommandCore reg acc.1 p.1.nodeId ty params initiator p.2 now
  (r.1, acc.2 + (if isOkB r.2 then 1 else 0))

/-- command-service.js 99-124: enumerate `getConnectedNodes()`, return
`(sent: 0, total: 0)` with NO failureCount when the list is empty, otherwise
issue a non-waiting `sendCommand` per listed node (each with a fresh uuid,
supplied here as `ids`) and aggregate the settlements. -/
def broadcastCommand (reg : Registry) (commands : List CommandRec)
    (ty params initiator : String) (ids : List String) (now : Nat) :
    List CommandRec × BroadcastResult :=
  let nodes := getConnectedNodes reg
  if nodes.length = 0 then
    (commands, { sent := 0, total := 0, failureCount := none })
  else
    let results := (nodes.zip ids).foldl (broadcastStep reg ty params initiator now) (commands, 0)
    (results.1,
     { sent := results.2, total := nodes.length,
       failureCount := some (nodes.length - results.2) })

/-! ## Response correlation and timeout (command-service.js 67-93 and 129-136,
handlers.js 81-127)

After a command is successfully transmitted with `waitForResponse = true`, the
caller suspends on a promise.  The state below tracks, for one such command:
whether its `commandCallbacks` entry is installed (`slot`), whether its timer
is scheduled and uncancelled (`timerActive`), the persisted Command document,
and the list of settlements delivered to the suspended caller.  The two events
that can touch this state are the timer firing and a `command_response` frame
arriving; the single threaded event loop runs them atomically in some order. -/

/-- A settlement delivered to the suspended caller of `sendCommand`. -/
inductive Settlement
  | resolved (result : Option String)
  | rejected (error : String)
deriving DecidableEq

/-- Correlation state for a single awaited command. -/
structure CorrState where
  slot : Bool
  timerActive : Bool
  cmd : CommandRec
  settled : List Settlement
deriving DecidableEq

/-- JavaScript `x || fallback` over an optional string: `undefined` and the
empty string are falsy. -/
def jsOrDefault (s : Option String) (fallback : String) : String :=
  match s with
  | some v => if v == "" then fallback else v
  | none => fallback

/-- An event touching the correlation state of one awaited command. -/
inductive CorrEv
  | fireTimeout (timeoutMs : Nat)
  | response (success : Bool) (result : Option String) (error : Option String) (now : Nat)
deriving DecidableEq

/-- One event against the correlation state.

`fireTimeout` (command-service.js 68-81) runs only while the timer is scheduled
and uncancelled: it deletes the `commandCallbacks` entry, persists
`status: timeout` with an explanatory error, and rejects the caller.

`response` (handlers.js 100-119) first persists the response outcome on the
Command document (status per the `success` flag, `completed` stamp, `result`
and `error` stored as delivered), then calls `notifyCommandCompletion`
(command-service.js 129-136): when a callback entry exists it is invoked (which
cancels the timer via `clearTimeout` and resolves or rejects the caller,
command-service.js 84-92) and then deleted; otherwise nothing further happens. -/
def corrStep (s : CorrState) (ev : CorrEv) : CorrState :=
  match ev with
  | CorrEv.fireTimeout timeoutMs =>
    if s.timerActive then
      { slot := false, timerActive := false,
        cmd := { s.cmd with
          status := CmdStatus.timeout,
          error := some ("Command timed out after " ++ toString timeoutMs ++ "ms") },
        settled := s.settled
          ++ [Settlement.rejected ("Command timed out after " ++ toString timeoutMs ++ "ms")] }
    else s
  | CorrEv.response success result error now =>
    let cmd' := { s.cmd with
      status := if success then CmdStatus.successful else CmdStatus.failed,
      completed := some now,
      result := result,
      error := error }
    if s.slot then
      { slot := false, timerActive := false, cmd := cmd',
        settled := s.settled
          ++ [if success then Settlement.resolved result
              else Settlement.rejected (jsOrDefault error "Command failed")] }
    else
      { s with cmd := cmd' }

/-- State right after a successful transmission with `waitForResponse = true`
(command-service.js 67-84): callback installed, timer scheduled, no settlement
delivered yet; `cmd` is the persisted record (status `sent`). -/
def initCorr (cmd : CommandRec) : CorrState :=
  { slot := true, timerActive := true, cmd := cmd, settled := [] }

/-- Run a sequence of correlation events. -/
def corrRun (s : CorrState) (evs : List CorrEv) : CorrState :=
  evs.foldl corrStep s

/-- Invariant of the correlation state: the timer never outlives the callback
entry, and nothing is settled while the callback entry is still installed, so
at most one settlement is ever delivered. -/
def CorrInv (s : CorrState) : Prop :=
  (s.timerActive = true → s.slot = true)
  ∧ (s.slot = true → s.settled = [])
  ∧ s.settled.length ≤ 1

/-- Invariant tying the scheduled timer to the `sent` status: the timer exists
only between the successful transmission and the first settlement. -/
def CorrStatusInv (s : CorrState) : Prop :=
  (s.timerActive = true → s.slot = true)
  ∧ (s.timerActive = true → s.cmd.status = CmdStatus.sent)

/-- Modelled from the words of the specification, for comparison with the
embedded operations: the one-directional status order asserted in spec section
4.4 — `pending → sent → (successful | failed | timeout)` plus the direct
`pending → failed` transmission-failure path. -/
def claimAllowed : CmdStatus → CmdStatus → Bool
  | CmdStatus.pending, CmdStatus.sent => true
  | CmdStatus.pending, CmdStatus.failed => true
  | CmdStatus.sent, CmdStatus.successful => true
  | CmdStatus.sent, CmdStatus.failed => true
  | CmdStatus.sent, CmdStatus.timeout => true
  | _, _ => false

/-! ## Concrete fixtures used by witnesses and counterexamples -/

/-- A connection handle in the OPEN state with a working `send`. -/
def wConnOpen : Conn := { readyState := ReadyState.rsOpen, sendFails := false, lastSeen := 0 }

/-- A connection handle whose socket has reached the CLOSED state while its
registry entry is still present. -/
def wConnClosed : Conn := { readyState := ReadyState.rsClosed, sendFails := false, lastSeen := 5 }

/-- A persisted Command in status `sent`, as it stands when the caller begins
waiting for the response. -/
def wCmd : CommandRec :=
  { commandId := "cmd-1", nodeId := "agent-1", type := "status", parameters := "",
    initiatedBy := "system", status := CmdStatus.sent, sent := some 0 }

/-- Two-entry registry for the heartbeat witness: agent-1 last seen at 0,
agent-2 last seen at 40000. -/
def wReg6 : Registry :=
  [("agent-1", { readyState := ReadyState.rsOpen, sendFails := false, lastSeen := 0 }),
   ("agent-2", { readyState := ReadyState.rsOpen, sendFails := false, lastSeen := 40000 })]

/-- Registry holding one OPEN node and one node whose handle already closed. -/
def wReg7 : Registry := [("agent-1", wConnOpen), ("agent-2", wConnClosed)]

/-! ## Correlation-state lemmas -/

lemma corrInv_init (cmd : CommandRec) : CorrInv (initCorr cmd) :=
  ⟨fun _ => rfl, fun _ => rfl, by simp [initCorr]⟩

lemma corrInv_step (s : CorrState) (ev : CorrEv) (h : CorrInv s) :
    CorrInv (corrStep s ev) := by
  obtain ⟨hts, hse, hlen⟩ := h
  cases ev with
  | fireTimeout t =>
    by_cases ht : s.timerActive = true
    · have hs : s.slot = true := hts ht
      have hnil : s.settled = [] := hse hs
      refine ⟨?_, ?_, ?_⟩ <;> simp [corrStep, ht, hnil]
    · have ht' : s.timerActive = false := by
        cases h : s.timerActive
        · rfl
        · exact absurd h ht
      simpa [corrStep, ht'] using ⟨hts, hse, hlen⟩
  | response b r e n =>
    by_cases hs : s.slot = true
    · have hnil : s.settled = [] := hse hs
      refine ⟨?_, ?_, ?_⟩ <;> simp [corrStep, hs, hnil]
    · have hs' : s.slot = false := by
        cases h : s.slot
        · rfl
        · exact absurd h hs
      have ht : s.timerActive = false := by
        cases h2 : s.timerActive
        · rfl
        · exact absurd (hts h2) hs
      refine ⟨?_, ?_, ?_⟩ <;> simp [corrStep, hs', ht, hlen]

lemma corrInv_run (s : CorrState) (evs : List CorrEv) (h : CorrInv s) :
    CorrInv (corrRun s evs) := by
  induction evs generalizing s with
  | nil => simpa [corrRun] using h
  | cons ev rest ih =>
    simp only [corrRun, List.foldl_cons]
    exact ih (corrStep s ev) (corrInv_step s ev h)

lemma corrStatusInv_step (s : CorrState) (ev : CorrEv) (h : CorrStatusInv s) :
    CorrStatusInv (corrStep s ev) := by
  obtain ⟨hts, hst⟩ := h
  cases ev with
  | fireTimeout t =>
    by_cases ht : s.timerActive = true
    · constructor <;> simp [corrStep, ht]
    · have ht' : s.timerActive = false := by
        cases h : s.timerActive
        · rfl
        · exact absurd h ht
      simpa [corrStep, ht'] using ⟨hts, hst⟩
  | response b r e n =>
    by_cases hs : s.slot = true
    · constructor <;> simp [corrStep, hs]
    · have hs' : s.slot = false := by
        cases h : s.slot
        · rfl
        · exact absurd h hs
      have ht : s.timerActive = false := by
        cases h2 : s.timerActive
        · rfl
        · exact absurd (hts h2) hs
      constructor <;> simp [corrStep, hs', ht]

lemma corrStatusInv_run (s : CorrState) (evs : List CorrEv) (h : CorrStatusInv s) :
    CorrStatusInv (corrRun s evs) := by
  induction evs generalizing s with
  | nil => simpa [corrRun] using h
  | cons ev rest ih =>
    simp only [corrRun, List.foldl_cons]
    exact ih (corrStep s ev) (corrStatusInv_step s ev h)

lemma corrStatusInv_init (cmd : CommandRec) (h : cmd.status = CmdStatus.sent) :
    CorrStatusInv (initCorr cmd) :=
  ⟨fun _ => rfl, fun _ => h⟩

/-! ## Claim theorems -/

/-- C1: for every nodeId with no OPEN registry entry, `sendCommand` rejects
with the NodeNotConnected error and leaves the command store untouched — in
particular any record with status `sent` afterwards already existed before. -/
theorem sendCommandRejectsWhenNotConnected (reg : Registry) (commands : List CommandRec)
    (nodeId ty params initiator cid : String) (now : Nat)
    (h : isNodeConnected reg nodeId = false) :
    (sendCommandCore reg commands nodeId ty params initiator cid now).1 = commands
  ∧ (sendCommandCore reg commands nodeId ty params initiator cid now).2
      = Except.error (SendError.nodeNotConnected nodeId)
  ∧ ∀ c ∈ (sendCommandCore reg commands nodeId ty params initiator cid now).1,
      c.status = CmdStatus.sent → c ∈ commands := by
  unfold sendCommandCore
  rw [if_pos h]
  exact ⟨rfl, rfl, fun c hc _ => hc⟩

/-- Witness for C1 at a concrete disconnected node. -/
theorem sendCommandRejectsWhenNotConnected_witness :
    (sendCommandCore [] [] "agent-1" "restart" "" "system" "cid-1" 0).1 = []
  ∧ (sendCommandCore [] [] "agent-1" "restart" "" "system" "cid-1" 0).2
      = Except.error (SendError.nodeNotConnected "agent-1") := by
  have h := sendCommandRejectsWhenNotConnected [] [] "agent-1" "restart" "" "system" "cid-1" 0
    (by decide)
  exact ⟨h.1, h.2.1⟩

/-- C2: for an awaited command, the suspended caller is settled at most once in
every interleaving of timer and response events; once the timeout fires the
callback slot is gone, the record is persisted as `timeout` and the caller is
rejected with the timeout error; a response arriving with the slot gone is
still persisted on the record but settles nobody; and after any response the
timer is cancelled and the slot removed, so a later timeout firing is a no-op. -/
theorem commandResolutionAtMostOnce (cmd : CommandRec) (evs : List CorrEv) :
    (corrRun (initCorr cmd) evs).settled.length ≤ 1
  ∧ (∀ t : Nat, (corrRun (initCorr cmd) evs).timerActive = true →
        (corrStep (corrRun (initCorr cmd) evs) (CorrEv.fireTimeout t)).slot = false
      ∧ (corrStep (corrRun (initCorr cmd) evs) (CorrEv.fireTimeout t)).cmd.status
          = CmdStatus.timeout
      ∧ (corrStep (corrRun (initCorr cmd) evs) (CorrEv.fireTimeout t)).settled
          = (corrRun (initCorr cmd) evs).settled
            ++ [Settlement.rejected ("Command timed out after " ++ toString t ++ "ms")])
  ∧ (∀ (b : Bool) (r e : Option String) (n : Nat),
        (corrRun (initCorr cmd) evs).slot = false →
        (corrStep (corrRun (initCorr cmd) evs) (CorrEv.response b r e n)).settled
          = (corrRun (initCorr cmd) evs).settled
      ∧ (corrStep (corrRun (initCorr cmd) evs) (CorrEv.response b r e n)).cmd.status
          = (if b then CmdStatus.successful else CmdStatus.failed)
      ∧ (corrStep (corrRun (initCorr cmd) evs) (CorrEv.response b r e n)).cmd.result = r
      ∧ (corrStep (corrRun (initCorr cmd) evs) (CorrEv.response b r e n)).cmd.error = e
      ∧ (corrStep (corrRun (initCorr cmd) evs) (CorrEv.response b r e n)).cmd.completed
          = some n)
  ∧ (∀ (b : Bool) (r e : Option String) (n t : Nat),
        corrStep (corrStep (corrRun (initCorr cmd) evs) (CorrEv.response b r e n))
            (CorrEv.fireTimeout t)
          = corrStep (corrRun (initCorr cmd) evs) (CorrEv.response b r e n)) := by
  obtain ⟨hts, hse, hlen⟩ := corrInv_run (initCorr cmd) evs (corrInv_init cmd)
  refine ⟨hlen, ?_, ?_, ?_⟩
  · intro t ht
    refine ⟨?_, ?_, ?_⟩ <;> simp [corrStep, ht]
  · intro b r e n hs
    refine ⟨?_, ?_, ?_, ?_, ?_⟩ <;> simp [corrStep, hs]
  · intro b r e n t
    by_cases hs : (corrRun (initCorr cmd) evs).slot = true
    · simp [corrStep, hs]
    · have hs' : (corrRun (initCorr cmd) evs).slot = false := by
        cases h : (corrRun (initCorr cmd) evs).slot
        · rfl
        · exact absurd h hs
      have ht : (corrRun (initCorr cmd) evs).timerActive = false := by
        cases h : (corrRun (initCorr cmd) evs).timerActive
        · rfl
        · exact absurd (hts h) hs
      simp [corrStep, hs', ht]

/-- Witness for C2: concrete trace in which the timeout fires first and a late
response then settles nobody. -/
theorem commandResolutionAtMostOnce_witness :
    (corrRun (initCorr wCmd) []).settled.length ≤ 1
  ∧ (corrStep (corrRun (initCorr wCmd) []) (CorrEv.fireTimeout 5000)).slot = false
  ∧ (corrStep (corrRun (initCorr wCmd) [CorrEv.fireTimeout 5000])
        (CorrEv.response true (some "late") none 9000)).settled
      = (corrRun (initCorr wCmd) [CorrEv.fireTimeout 5000]).settled := by
  have h1 := commandResolutionAtMostOnce wCmd []
  have h2 := commandResolutionAtMostOnce wCmd [CorrEv.fireTimeout 5000]
  exact ⟨h1.1, (h1.2.1 5000 (by decide)).1,
    (h2.2.2.1 true (some "late") none 9000 (by decide)).1⟩

/-- C3: while the callback slot is still installed (the response arrives before
the deadline), a `command_response` resolves the caller with exactly the
delivered result on success, rejects it with the delivered error on failure,
and the persisted status is `successful` exactly when the success flag is true
and `failed` otherwise, with the delivered result and error stored verbatim. -/
theorem commandResponseBeforeDeadline (cmd : CommandRec) (evs : List CorrEv)
    (b : Bool) (r e : Option String) (n : Nat)
    (hs : (corrRun (initCorr cmd) evs).slot = true) :
    (b = true →
        (corrStep (corrRun (initCorr cmd) evs) (CorrEv.response b r e n)).settled
          = [Settlement.resolved r]
      ∧ (corrStep (corrRun (initCorr cmd) evs) (CorrEv.response b r e n)).cmd.status
          = CmdStatus.successful)
  ∧ (b = false →
        (corrStep (corrRun (initCorr cmd) evs) (CorrEv.response b r e n)).settled
          = [Settlement.rejected (jsOrDefault e "Command failed")]
      ∧ (corrStep (corrRun (initCorr cmd) evs) (CorrEv.response b r e n)).cmd.status
          = CmdStatus.failed)
  ∧ (∀ msg : String, b = false → e = some msg → msg ≠ "" →
        (corrStep (corrRun (initCorr cmd) evs) (CorrEv.response b r e n)).settled
          = [Settlement.rejected msg])
  ∧ ((corrStep (corrRun (initCorr cmd) evs) (CorrEv.response b r e n)).cmd.status
        = CmdStatus.successful ↔ b = true)
  ∧ (corrStep (corrRun (initCorr cmd) evs) (CorrEv.response b r e n)).cmd.result = r
  ∧ (corrStep (corrRun (initCorr cmd) evs) (CorrEv.response b r e n)).cmd.error = e := by
  obtain ⟨hts, hse, hlen⟩ := corrInv_run (initCorr cmd) evs (corrInv_init cmd)
  have hnil : (corrRun (initCorr cmd) evs).settled = [] := hse hs
  refine ⟨?_, ?_, ?_, ?_, ?_, ?_⟩
  · intro hb
    constructor <;> simp [corrStep, hs, hnil, hb]
  · intro hb
    constructor <;> simp [corrStep, hs, hnil, hb]
  · intro msg hb he hne
    have hbeq : (msg == "") = false := by
      cases h : msg == ""
      · rfl
      · exact absurd (eq_of_beq h) hne
    simp [corrStep, hs, hnil, hb, he, jsOrDefault, hbeq]
  · cases b <;> simp [corrStep, hs]
  · simp [corrStep, hs]
  · simp [corrStep, hs]

/-- Witness for C3: the scenario of spec section 8 — the agent replies with
success and result before the deadline; the caller receives exactly that
result and the record ends `successful`. -/
theorem commandResponseBeforeDeadline_witness :
    (corrStep (corrRun (initCorr wCmd) [])
        (CorrEv.response true (some "cpu 12") none 2000)).settled
      = [Settlement.resolved (some "cpu 12")]
  ∧ (corrStep (corrRun (initCorr wCmd) [])
        (CorrEv.response true (some "cpu 12") none 2000)).cmd.status
      = CmdStatus.successful := by
  have h := commandResponseBeforeDeadline wCmd [] true (some "cpu 12") none 2000 (by decide)
  exact h.1 rfl

/-! ## Command-store lemmas -/

lemma any_eq_false_forall {l : List CommandRec} {cid : String}
    (h : l.any (fun rc => rc.commandId == cid) = false) :
    ∀ rc ∈ l, rc.commandId ≠ cid := by
  intro rc hrc heq
  have : l.any (fun rc => rc.commandId == cid) = true :=
    List.any_eq_true.mpr ⟨rc, hrc, by simp [heq]⟩
  simp [this] at h

lemma map_keep_of_ne (l : List CommandRec) (c : CommandRec)
    (h : ∀ rc ∈ l, rc.commandId ≠ c.commandId) :
    l.map (fun rc => if rc.commandId == c.commandId then c else rc) = l := by
  induction l with
  | nil => rfl
  | cons a tl ih =>
    simp only [List.map_cons]
    rw [if_neg (by simpa using h a (List.mem_cons_self a tl)),
      ih (fun rc hrc => h rc (List.mem_cons_of_mem a hrc))]

lemma saveCommand_fresh (commands : List CommandRec) (c : CommandRec)
    (h : commands.any (fun rc => rc.commandId == c.commandId) = false) :
    saveCommand commands c = commands ++ [c] := by
  unfold saveCommand
  rw [if_neg (by simp [h])]

lemma saveCommand_update_last (commands : List CommandRec) (p c : CommandRec)
    (hfresh : ∀ rc ∈ commands, rc.commandId ≠ c.commandId)
    (hid : p.commandId = c.commandId) :
    saveCommand (commands ++ [p]) c = commands ++ [c] := by
  unfold saveCommand
  rw [if_pos (List.any_eq_true.mpr ⟨p, by simp, by simp [hid]⟩)]
  rw [List.map_append, map_keep_of_ne commands c hfresh]
  simp [hid]

/-- Under a fresh command id, `sendCommandCore` on a connected node appends
exactly one record, whose id is the fresh one and whose status is `failed` or
`sent`. -/
lemma sendCommandCore_connected (reg : Registry) (commands : List CommandRec)
    (nodeId ty params initiator cid : String) (now : Nat)
    (hfresh : commands.any (fun rc => rc.commandId == cid) = false)
    (hconn : ¬ isNodeConnected reg nodeId = false) :
    ∃ c : CommandRec,
      (sendCommandCore reg commands nodeId ty params initiator cid now).1 = commands ++ [c]
    ∧ c.commandId = cid
    ∧ (c.status = CmdStatus.failed ∨ c.status = CmdStatus.sent) := by
  have hforall : ∀ rc ∈ commands, rc.commandId ≠ cid := any_eq_false_forall hfresh
  have h1 : saveCommand commands (pendingRec cid nodeId ty params initiator)
      = commands ++ [pendingRec cid nodeId ty params initiator] :=
    saveCommand_fresh _ _ hfresh
  have hforF : ∀ rc ∈ commands,
      rc.commandId ≠ (failedRec cid nodeId ty params initiator).commandId := by
    intro rc hrc
    rw [show (failedRec cid nodeId ty params initiator).commandId = cid from rfl]
    exact hforall rc hrc
  have hforS : ∀ rc ∈ commands,
      rc.commandId ≠ (sentRec cid nodeId ty params initiator now).commandId := by
    intro rc hrc
    rw [show (sentRec cid nodeId ty params initiator now).commandId = cid from rfl]
    exact hforall rc hrc
  by_cases hsend : sendToNode reg nodeId
      { commandId := cid, command := ty, parameters := params, timestamp := now } = false
  · refine ⟨failedRec cid nodeId ty params initiator, ?_, rfl, Or.inl rfl⟩
    unfold sendCommandCore
    rw [if_neg hconn, if_pos hsend, h1,
      saveCommand_update_last commands (pendingRec cid nodeId ty params initiator)
        (failedRec cid nodeId ty params initiator) hforF rfl]
  · refine ⟨sentRec cid nodeId ty params initiator now, ?_, rfl, Or.inr rfl⟩
    unfold sendCommandCore
    rw [if_neg hconn, if_neg hsend, h1,
      saveCommand_update_last commands (pendingRec cid nodeId ty params initiator)
        (sentRec cid nodeId ty params initiator now) hforS rfl]

/-- C4 counterexample: a command persisted as `timeout` (terminal) is moved to
`successful` by a late `command_response`, a transition outside the
one-directional order asserted by the claim. -/
theorem commandStatusRegressionAfterTimeout :
    (corrStep (initCorr wCmd) (CorrEv.fireTimeout 5000)).cmd.status = CmdStatus.timeout
  ∧ (corrStep (corrStep (initCorr wCmd) (CorrEv.fireTimeout 5000))
        (CorrEv.response true (some "ok") none 9000)).cmd.status = CmdStatus.successful
  ∧ claimAllowed CmdStatus.timeout CmdStatus.successful = false := by
  decide

/-- C4 amended: every transition performed by the correlation engine on an
awaited command either leaves the status unchanged, follows the one-directional
order `pending → sent → (successful | failed | timeout)` plus
`pending → failed`, or is a `command_response` overwrite, which sets the status
to `successful` or `failed` per the success flag regardless of the current
status; and `sendCommandCore` only ever adds a record whose status is reached
from `pending` along the one-directional order. -/
theorem commandStatusTransitionOrderAmended :
    (∀ (cmd : CommandRec) (evs : List CorrEv) (ev : CorrEv),
        cmd.status = CmdStatus.sent →
        (corrStep (corrRun (initCorr cmd) evs) ev).cmd.status
            = (corrRun (initCorr cmd) evs).cmd.status
      ∨ claimAllowed (corrRun (initCorr cmd) evs).cmd.status
            ((corrStep (corrRun (initCorr cmd) evs) ev).cmd.status) = true
      ∨ (∃ (b : Bool) (r e : Option String) (n : Nat), ev = CorrEv.response b r e n
          ∧ (corrStep (corrRun (initCorr cmd) evs) ev).cmd.status
              = (if b then CmdStatus.successful else CmdStatus.failed)))
  ∧ (∀ (reg : Registry) (commands : List CommandRec)
        (nodeId ty params initiator cid : String) (now : Nat),
        commands.any (fun rc => rc.commandId == cid) = false →
        ∀ c ∈ (sendCommandCore reg commands nodeId ty params initiator cid now).1,
          c ∈ commands
        ∨ (claimAllowed CmdStatus.pending c.status = true ∧ c.commandId = cid)) := by
  constructor
  · intro cmd evs ev hsent
    obtain ⟨hts, hst⟩ := corrStatusInv_run (initCorr cmd) evs (corrStatusInv_init cmd hsent)
    cases ev with
    | fireTimeout t =>
      by_cases ht : (corrRun (initCorr cmd) evs).timerActive = true
      · refine Or.inr (Or.inl ?_)
        rw [hst ht]
        simp [corrStep, ht, claimAllowed]
      · have ht' : (corrRun (initCorr cmd) evs).timerActive = false := by
          cases h : (corrRun (initCorr cmd) evs).timerActive
          · rfl
          · exact absurd h ht
        exact Or.inl (by simp [corrStep, ht'])
    | response b r e n =>
      refine Or.inr (Or.inr ⟨b, r, e, n, rfl, ?_⟩)
      by_cases hs : (corrRun (initCorr cmd) evs).slot = true
      · simp [corrStep, hs]
      · have hs' : (corrRun (initCorr cmd) evs).slot = false := by
          cases h : (corrRun (initCorr cmd) evs).slot
          · rfl
          · exact absurd h hs
        simp [corrStep, hs']
  · intro reg commands nodeId ty params initiator cid now hfresh c hc
    by_cases hconn : isNodeConnected reg nodeId = false
    · rw [(sendCommandRejectsWhenNotConnected reg commands nodeId ty params initiator
        cid now hconn).1] at hc
      exact Or.inl hc
    · obtain ⟨c0, heq, hid, hstatus⟩ :=
        sendCommandCore_connected reg commands nodeId ty params initiator cid now hfresh hconn
      rw [heq] at hc
      rcases List.mem_append.mp hc with h | h
      · exact Or.inl h
      · have hc0 : c = c0 := by simpa using h
        subst hc0
        refine Or.inr ⟨?_, hid⟩
        rcases hstatus with h | h <;> rw [h] <;> rfl

/-- Witness for C4 amended, at a concrete timer firing and a concrete
successful send. -/
theorem commandStatusTransitionOrderAmended_witness :
    ((corrStep (corrRun (initCorr wCmd) []) (CorrEv.fireTimeout 5000)).cmd.status
        = (corrRun (initCorr wCmd) []).cmd.status
      ∨ claimAllowed (corrRun (initCorr wCmd) []).cmd.status
          ((corrStep (corrRun (initCorr wCmd) []) (CorrEv.fireTimeout 5000)).cmd.status) = true
      ∨ (∃ (b : Bool) (r e : Option String) (n : Nat),
            CorrEv.fireTimeout 5000 = CorrEv.response b r e n
          ∧ (corrStep (corrRun (initCorr wCmd) []) (CorrEv.fireTimeout 5000)).cmd.status
              = (if b then CmdStatus.successful else CmdStatus.failed)))
  ∧ (sentRec "cid-1" "agent-1" "status" "" "system" 0
        ∈ (sendCommandCore [("agent-1", wConnOpen)] [] "agent-1" "status" "" "system" "cid-1" 0).1
      ∨ (claimAllowed CmdStatus.pending
            (sentRec "cid-1" "agent-1" "status" "" "system" 0).status = true
        ∧ (sentRec "cid-1" "agent-1" "status" "" "system" 0).commandId = "cid-1")) := by
  have h := commandStatusTransitionOrderAmended
  refine ⟨h.1 wCmd [] (CorrEv.fireTimeout 5000) rfl, ?_⟩
  have h2 := h.2 [("agent-1", wConnOpen)] [] "agent-1" "status" "" "system" "cid-1" 0
    (by decide) (sentRec "cid-1" "agent-1" "status" "" "system" 0) (by decide)
  rcases h2 with h2 | h2
  · simp at h2
  · exact Or.inr h2

/-- C5: the registration acknowledgement is never transmitted.  The `register`
handler builds a well-formed `register_confirmation` (success flag, timestamp
on the success path) and RETURNS it, but the dispatcher of server.js line 95
discards handler return values, so processing a register frame writes nothing
to the socket; moreover the failure-path confirmation carries no timestamp.
The claim matches the comment above handlers.js line 182 ("Send confirmation
back to node"), so this is a defect of the code, not of the claim. -/
theorem registerConfirmationNeverSent :
    (register "agent-1" { type := "register", ip := some "10.0.0.5" } 1000 true "").type
      = "register_confirmation"
  ∧ (register "agent-1" { type := "register", ip := some "10.0.0.5" } 1000 true "").success
      = true
  ∧ (register "agent-1" { type := "register", ip := some "10.0.0.5" } 1000 true "").timestamp
      = some 1000
  ∧ (processMessage [("agent-1", wConnOpen)] "agent-1" 1000
        (some { type := "register", ip := some "10.0.0.5" })).sentFrames = []
  ∧ (register "agent-1" { type := "register", ip := some "10.0.0.5" } 1000 false
        "db down").timestamp = none := by
  refine ⟨rfl, rfl, rfl, ?_, rfl⟩
  rfl

/-! ## Heartbeat-sweep lemmas -/

lemma sweep_registry_mem (now t : Nat) (reg : Registry) (p : String × Conn)
    (h : p ∈ (heartbeatSweep now t reg).registry) : p ∈ reg := by
  induction reg with
  | nil => simp [heartbeatSweep] at h
  | cons hd tl ih =>
    obtain ⟨k, c⟩ := hd
    by_cases hc : t < now - c.lastSeen
    · simp only [heartbeatSweep, if_pos hc] at h
      exact List.mem_cons_of_mem _ (ih h)
    · simp only [heartbeatSweep, if_neg hc, List.mem_cons] at h
      rcases h with h | h
      · exact h ▸ List.mem_cons_self _ _
      · exact List.mem_cons_of_mem _ (ih h)

lemma sweep_updates_keys (now t : Nat) (reg : Registry) (u : NodeDbUpdate)
    (h : u ∈ (heartbeatSweep now t reg).updates) : u.nodeId ∈ reg.map Prod.fst := by
  induction reg with
  | nil => simp [heartbeatSweep] at h
  | cons hd tl ih =>
    obtain ⟨k, c⟩ := hd
    simp only [List.map_cons, List.mem_cons]
    by_cases hc : t < now - c.lastSeen
    · simp only [heartbeatSweep, if_pos hc, List.mem_cons] at h
      rcases h with h | h
      · exact Or.inl (by rw [h])
      · exact Or.inr (ih h)
    · simp only [heartbeatSweep, if_neg hc] at h
      exact Or.inr (ih h)

lemma sweep_closes_keys (now t : Nat) (reg : Registry) (ce : CloseEvt)
    (h : ce ∈ (heartbeatSweep now t reg).closes) : ce.nodeId ∈ reg.map Prod.fst := by
  induction reg with
  | nil => simp [heartbeatSweep] at h
  | cons hd tl ih =>
    obtain ⟨k, c⟩ := hd
    simp only [List.map_cons, List.mem_cons]
    by_cases hc : t < now - c.lastSeen
    · simp only [heartbeatSweep, if_pos hc, List.mem_append] at h
      rcases h with h | h
      · by_cases hop : c.readyState == ReadyState.rsOpen
        · simp only [if_pos hop, List.mem_singleton] at h
          exact Or.inl (by rw [h])
        · simp only [if_neg hop] at h
          simp at h
      · exact Or.inr (ih h)
    · simp only [heartbeatSweep, if_neg hc] at h
      exact Or.inr (ih h)

/-- C6: a sweep at time `now` with timeout `timeoutMs` evicts exactly the stale
entries: each entry silent past the timeout is removed from the registry, a
node-record update marking it offline with `lastSeen` equal to the entry
`lastActivity` value (not the eviction instant) is issued, and — when its
handle is OPEN — a close with code 1001 and reason "Heartbeat timeout" is
issued; each entry within the timeout survives untouched, with no update and
no close naming it. -/
theorem heartbeatSweepEviction (now timeoutMs : Nat) (reg : Registry)
    (nodeId : String) (node : Conn)
    (hmem : (nodeId, node) ∈ reg) (hnodup : (reg.map Prod.fst).Nodup) :
    (timeoutMs < now - node.lastSeen →
        (∀ c : Conn, (nodeId, c) ∉ (heartbeatSweep now timeoutMs reg).registry)
      ∧ ({ nodeId := nodeId, status := "offline", lastSeen := node.lastSeen } : NodeDbUpdate)
          ∈ (heartbeatSweep now timeoutMs reg).updates
      ∧ (node.readyState = ReadyState.rsOpen →
          ({ nodeId := nodeId, code := 1001, reason := "Heartbeat timeout" } : CloseEvt)
            ∈ (heartbeatSweep now timeoutMs reg).closes))
  ∧ (¬ timeoutMs < now - node.lastSeen →
        (nodeId, node) ∈ (heartbeatSweep now timeoutMs reg).registry
      ∧ (∀ u ∈ (heartbeatSweep now timeoutMs reg).updates, u.nodeId ≠ nodeId)
      ∧ (∀ ce ∈ (heartbeatSweep now timeoutMs reg).closes, ce.nodeId ≠ nodeId)) := by
  induction reg with
  | nil => cases hmem
  | cons hd tl ih =>
    obtain ⟨k, c⟩ := hd
    simp only [List.map_cons, List.nodup_cons] at hnodup
    obtain ⟨hk, htl⟩ := hnodup
    rcases List.mem_cons.mp hmem with heq | hmemtl
    · rw [Prod.mk.injEq] at heq
      obtain ⟨h1, h2⟩ := heq
      subst h1
      subst h2
      constructor
      · intro hst
        refine ⟨?_, ?_, ?_⟩
        · intro cc hcc
          simp only [heartbeatSweep, if_pos hst] at hcc
          exact hk (List.mem_map_of_mem Prod.fst (sweep_registry_mem now timeoutMs tl _ hcc))
        · simp [heartbeatSweep, if_pos hst]
        · intro hop
          simp [heartbeatSweep, if_pos hst, hop]
      · intro hst
        refine ⟨?_, ?_, ?_⟩
        · simp [heartbeatSweep, if_neg hst]
        · intro u hu
          simp only [heartbeatSweep, if_neg hst] at hu
          intro he
          exact hk (he ▸ sweep_updates_keys now timeoutMs tl u hu)
        · intro ce hce
          simp only [heartbeatSweep, if_neg hst] at hce
          intro he
          exact hk (he ▸ sweep_closes_keys now timeoutMs tl ce hce)
    · have hkne : k ≠ nodeId := by
        intro he
        subst he
        exact hk (List.mem_map_of_mem Prod.fst hmemtl)
      have ihh := ih hmemtl htl
      constructor
      · intro hst
        obtain ⟨hrem, hupd, hcl⟩ := ihh.1 hst
        by_cases hc : timeoutMs < now - c.lastSeen
        · refine ⟨?_, ?_, ?_⟩
          · intro cc hcc
            simp only [heartbeatSweep, if_pos hc] at hcc
            exact hrem cc hcc
          · simp only [heartbeatSweep, if_pos hc, List.mem_cons]
            exact Or.inr hupd
          · intro hop
            simp only [heartbeatSweep, if_pos hc, List.mem_append]
            exact Or.inr (hcl hop)
        · refine ⟨?_, ?_, ?_⟩
          · intro cc hcc
            simp only [heartbeatSweep, if_neg hc, List.mem_cons, Prod.mk.injEq] at hcc
            rcases hcc with ⟨h1, _⟩ | hcc
            · exact hkne h1.symm
            · exact hrem cc hcc
          · simp only [heartbeatSweep, if_neg hc]
            exact hupd
          · intro hop
            simp only [heartbeatSweep, if_neg hc]
            exact hcl hop
      · intro hst
        obtain ⟨hmem2, hupd, hcl⟩ := ihh.2 hst
        by_cases hc : timeoutMs < now - c.lastSeen
        · refine ⟨?_, ?_, ?_⟩
          · simp only [heartbeatSweep, if_pos hc]
            exact hmem2
          · intro u hu
            simp only [heartbeatSweep, if_pos hc, List.mem_cons] at hu
            rcases hu with hu | hu
            · rw [hu]
              exact hkne
            · exact hupd u hu
          · intro ce hce
            simp only [heartbeatSweep, if_pos hc, List.mem_append] at hce
            rcases hce with hce | hce
            · by_cases hop : c.readyState == ReadyState.rsOpen
              · simp only [if_pos hop, List.mem_singleton] at hce
                rw [hce]
                exact hkne
              · simp only [if_neg hop] at hce
                simp at hce
            · exact hcl ce hce
        · refine ⟨?_, ?_, ?_⟩
          · simp only [heartbeatSweep, if_neg hc, List.mem_cons]
            exact Or.inr hmem2
          · intro u hu
            simp only [heartbeatSweep, if_neg hc] at hu
            exact hupd u hu
          · intro ce hce
            simp only [heartbeatSweep, if_neg hc] at hce
            exact hcl ce hce

/-- Witness for C6: agent-1 (silent for 61s with a 60s timeout) is evicted with
the offline update carrying its old `lastSeen`, while agent-2 (silent 21s)
survives. -/
theorem heartbeatSweepEviction_witness :
    ({ nodeId := "agent-1", status := "offline", lastSeen := 0 } : NodeDbUpdate)
      ∈ (heartbeatSweep 61000 60000 wReg6).updates
  ∧ ({ nodeId := "agent-1", code := 1001, reason := "Heartbeat timeout" } : CloseEvt)
      ∈ (heartbeatSweep 61000 60000 wReg6).closes
  ∧ ("agent-2", ({ readyState := ReadyState.rsOpen, sendFails := false, lastSeen := 40000 } : Conn))
      ∈ (heartbeatSweep 61000 60000 wReg6).registry := by
  have h1 := heartbeatSweepEviction 61000 60000 wReg6 "agent-1"
    { readyState := ReadyState.rsOpen, sendFails := false, lastSeen := 0 }
    (by decide) (by decide)
  have h2 := heartbeatSweepEviction 61000 60000 wReg6 "agent-2"
    { readyState := ReadyState.rsOpen, sendFails := false, lastSeen := 40000 }
    (by decide) (by decide)
  obtain ⟨_, hupd, hcl⟩ := h1.1 (by decide)
  obtain ⟨hmem, _, _⟩ := h2.2 (by decide)
  exact ⟨hupd, hcl rfl, hmem⟩

/-! ## Broadcast lemmas -/

lemma isOkB_sendCommandCore (reg : Registry) (commands : List CommandRec)
    (nodeId ty params initiator cid : String) (now : Nat) :
    isOkB (sendCommandCore reg commands nodeId ty params initiator cid now).2
      = transmitOk reg nodeId := by
  unfold sendCommandCore isNodeConnected sendToNode transmitOk
  cases hg : regGet reg nodeId with
  | none => simp [isOkB]
  | some node =>
    cases hop : node.readyState == ReadyState.rsOpen with
    | false => simp [hop, isOkB]
    | true =>
      cases hsf : node.sendFails with
      | false => simp [hop, hsf, isOkB]
      | true => simp [hop, hsf, isOkB]

lemma broadcast_fold_count (reg : Registry) (ty params initiator : String) (now : Nat)
    (pairs : List (NodeInfo × String)) :
    ∀ acc : List CommandRec × Nat,
      (pairs.foldl (broadcastStep reg ty params initiator now) acc).2
        = acc.2 + (pairs.filter (fun p => transmitOk reg p.1.nodeId)).length := by
  induction pairs with
  | nil => intro acc; simp
  | cons hd tl ih =>
    intro acc
    simp only [List.foldl_cons, List.filter_cons]
    rw [ih]
    have hstep : (broadcastStep reg ty params initiator now acc hd).2
        = acc.2 + (if transmitOk reg hd.1.nodeId then 1 else 0) := by
      simp only [broadcastStep,
        isOkB_sendCommandCore reg acc.1 hd.1.nodeId ty params initiator hd.2 now]
    rw [hstep]
    cases h : transmitOk reg hd.1.nodeId <;> (simp [h]; try omega)

lemma zip_filter_fst (reg : Registry) :
    ∀ (nodes : List NodeInfo) (ids : List String), nodes.length ≤ ids.length →
      ((nodes.zip ids).filter (fun p => transmitOk reg p.1.nodeId)).length
        = (nodes.filter (fun n => transmitOk reg n.nodeId)).length := by
  intro nodes
  induction nodes with
  | nil => intro ids _; simp
  | cons n tl ih =>
    intro ids h
    cases ids with
    | nil => simp at h
    | cons i itl =>
      simp only [List.zip_cons_cons, List.filter_cons]
      have h' : tl.length ≤ itl.length := by
        simpa [Nat.succ_le_succ_iff] using h
      cases hn : transmitOk reg n.nodeId <;> simp [ih itl h']

lemma length_filter_split (l : List NodeInfo) (p : NodeInfo → Bool) :
    (l.filter p).length + (l.filter (fun a => !(p a))).length = l.length := by
  induction l with
  | nil => rfl
  | cons a tl ih =>
    simp only [List.filter_cons]
    cases h : p a <;> simp [h] <;> omega

/-- C7 counterexample: with zero enumerated nodes the broadcast aggregate
carries no `failureCount` field at all (modelled as `none`), where the claim
demands `failureCount: 0`; and with one registry entry whose handle is closed
there are zero currently connected nodes, yet the aggregate reports
`total = 1`. -/
theorem broadcastZeroNodesNoFailureCount :
    (broadcastCommand [] [] "restart" "" "system" [] 0).2
      = { sent := 0, total := 0, failureCount := none }
  ∧ ((getConnectedNodes [("agent-1", wConnClosed)]).filter (fun n => n.connected)).length = 0
  ∧ (broadcastCommand [("agent-1", wConnClosed)] [] "restart" "" "system" ["id-1"] 0).2
      = { sent := 0, total := 1, failureCount := some 1 } := by
  refine ⟨rfl, rfl, ?_⟩
  rfl

/-- C7 amended: for every broadcast over at least one enumerated registry entry
(enumeration per `getConnectedNodes`, which lists entries whose handle is not
OPEN as well), with N the number of enumerated entries and K the number of
per-node issuances that fail transmission, the aggregate is exactly
`sent = N - K`, `total = N`, `failureCount = K`; with zero enumerated entries
the aggregate is `sent = 0, total = 0` with no `failureCount` field.  Every
per-node issuance is the non-waiting `sendCommand` path (it installs no
pending-response slot and no timer). -/
theorem broadcastAggregateAmended (reg : Registry) (commands : List CommandRec)
    (ty params initiator : String) (ids : List String) (now : Nat)
    (hids : (getConnectedNodes reg).length ≤ ids.length)
    (hne : (getConnectedNodes reg).length ≠ 0) :
    (broadcastCommand reg commands ty params initiator ids now).2.total
        = (getConnectedNodes reg).length
  ∧ (broadcastCommand reg commands ty params initiator ids now).2.sent
      = (getConnectedNodes reg).length
        - ((getConnectedNodes reg).filter (fun n => !(transmitOk reg n.nodeId))).length
  ∧ (broadcastCommand reg commands ty params initiator ids now).2.failureCount
      = some ((getConnectedNodes reg).filter (fun n => !(transmitOk reg n.nodeId))).length := by
  have hcount :
      (((getConnectedNodes reg).zip ids).foldl
        (broadcastStep reg ty params initiator now) (commands, 0)).2
      = ((getConnectedNodes reg).filter (fun n => transmitOk reg n.nodeId)).length := by
    rw [broadcast_fold_count reg ty params initiator now _ (commands, 0),
      zip_filter_fst reg (getConnectedNodes reg) ids hids]
    simp
  have hsplit := length_filter_split (getConnectedNodes reg)
    (fun n => transmitOk reg n.nodeId)
  refine ⟨?_, ?_, ?_⟩
  · unfold broadcastCommand
    rw [if_neg hne]
  · unfold broadcastCommand
    rw [if_neg hne]
    show (((getConnectedNodes reg).zip ids).foldl
        (broadcastStep reg ty params initiator now) (commands, 0)).2 = _
    rw [hcount]
    omega
  · unfold broadcastCommand
    rw [if_neg hne]
    show some ((getConnectedNodes reg).length
        - (((getConnectedNodes reg).zip ids).foldl
            (broadcastStep reg ty params initiator now) (commands, 0)).2) = _
    rw [hcount]
    congr 1
    omega

/-- Witness for C7 amended on a registry with one OPEN and one closed entry:
two enumerated nodes, one transmission failure. -/
theorem broadcastAggregateAmended_witness :
    (broadcastCommand wReg7 [] "status" "" "system" ["id-1", "id-2"] 0).2.total = 2
  ∧ (broadcastCommand wReg7 [] "status" "" "system" ["id-1", "id-2"] 0).2.sent = 1
  ∧ (broadcastCommand wReg7 [] "status" "" "system" ["id-1", "id-2"] 0).2.failureCount
      = some 1 := by
  have h := broadcastAggregateAmended wReg7 [] "status" "" "system" ["id-1", "id-2"] 0
    (by decide) (by decide)
  refine ⟨h.1.trans (by decide), h.2.1.trans (by decide), h.2.2.trans (by decide)⟩

/-! ## Router theorems -/

/-- C8: a parsed frame whose declared type is outside the handler table is
logged and dropped with the connection left open and the registry entry of the
node still present (merely touched); an unparsable frame is dropped before any
dispatch, with the registry wholly unchanged and the connection left open. -/
theorem malformedOrUnknownFrameHandling (reg : Registry) (nodeId : String) (now : Nat)
    (data : InMsg) (hunk : knownTypes.contains data.type = false) :
    ((processMessage reg nodeId now (some data)).outcome = Outcome.droppedUnknown
  ∧ (processMessage reg nodeId now (some data)).connectionClosed = false
  ∧ (processMessage reg nodeId now (some data)).sentFrames = []
  ∧ (∀ c : Conn, (nodeId, c) ∈ reg →
      (nodeId, { c with lastSeen := now }) ∈ (processMessage reg nodeId now (some data)).registry))
  ∧ ((processMessage reg nodeId now none).outcome = Outcome.droppedInvalid
  ∧ (processMessage reg nodeId now none).connectionClosed = false
  ∧ (processMessage reg nodeId now none).registry = reg) := by
  have h0 : ¬ (knownTypes.contains data.type = true) := by
    rw [hunk]
    exact Bool.false_ne_true
  refine ⟨⟨?_, ?_, ?_, ?_⟩, rfl, rfl, rfl⟩
  · simp only [processMessage]
    rw [if_neg h0]
  · simp only [processMessage]
    rw [if_neg h0]
  · simp only [processMessage]
    rw [if_neg h0]
  · intro c hc
    simp only [processMessage]
    rw [if_neg h0]
    show (nodeId, { c with lastSeen := now }) ∈ touch reg nodeId now
    have := List.mem_map_of_mem
      (f := fun p : String × Conn =>
        if p.1 == nodeId then (p.1, { p.2 with lastSeen := now }) else p) hc
    simpa [touch] using this

/-- Witness for C8 at a concrete unknown-type frame against a one-entry
registry. -/
theorem malformedOrUnknownFrameHandling_witness :
    (processMessage [("agent-1", wConnOpen)] "agent-1" 7 (some { type := "bogus" })).outcome
      = Outcome.droppedUnknown
  ∧ ("agent-1", ({ wConnOpen with lastSeen := 7 } : Conn))
      ∈ (processMessage [("agent-1", wConnOpen)] "agent-1" 7
          (some { type := "bogus" })).registry
  ∧ (processMessage [("agent-1", wConnOpen)] "agent-1" 7 none).registry
      = [("agent-1", wConnOpen)] := by
  have h := malformedOrUnknownFrameHandling [("agent-1", wConnOpen)] "agent-1" 7
    { type := "bogus" } (by decide)
  exact ⟨h.1.1, h.1.2.2.2 wConnOpen (by decide), h.2.2.2⟩

/-- C9 counterexample: a frame on which JSON.parse throws refreshes nothing —
the entry of agent-1 keeps `lastSeen = 5` although the frame arrived at
`now = 10`, so not every inbound frame refreshes the liveness of the node. -/
theorem malformedFrameSkipsTouch :
    (processMessage [("agent-1", wConnClosed)] "agent-1" 10 none).registry
      = [("agent-1", wConnClosed)]
  ∧ regGet (processMessage [("agent-1", wConnClosed)] "agent-1" 10 none).registry "agent-1"
      = some wConnClosed
  ∧ wConnClosed.lastSeen = 5
  ∧ (5 : Nat) ≠ 10 := by
  refine ⟨rfl, rfl, rfl, ?_⟩
  decide

/-- C9 amended: every inbound frame that PARSES refreshes the `lastSeen`
timestamp of the node before dispatch — the registry handed to (and returned
unchanged by) the dispatch is exactly the touched one, whatever the declared
type — while a frame that fails structural parsing is dropped before the touch
and leaves `lastSeen` unchanged. -/
theorem parsedFrameTouchBeforeDispatch (reg : Registry) (nodeId : String) (now : Nat)
    (data : InMsg) :
    (processMessage reg nodeId now (some data)).registry = touch reg nodeId now
  ∧ (∀ c : Conn, (nodeId, c) ∈ reg →
      (nodeId, { c with lastSeen := now })
        ∈ (processMessage reg nodeId now (some data)).registry)
  ∧ (processMessage reg nodeId now none).registry = reg := by
  have hreg : (processMessage reg nodeId now (some data)).registry = touch reg nodeId now := by
    simp only [processMessage]
    by_cases hk : knownTypes.contains data.type = true
    · rw [if_pos hk]
    · rw [if_neg hk]
  refine ⟨hreg, ?_, rfl⟩
  intro c hc
  rw [hreg]
  have := List.mem_map_of_mem
    (f := fun p : String × Conn =>
      if p.1 == nodeId then (p.1, { p.2 with lastSeen := now }) else p) hc
  simpa [touch] using this

/-- Witness for C9 amended: a parsed heartbeat frame moves `lastSeen` to the
arrival instant before dispatch. -/
theorem parsedFrameTouchBeforeDispatch_witness :
    (processMessage [("agent-1", wConnOpen)] "agent-1" 42
        (some { type := "heartbeat" })).registry
      = touch [("agent-1", wConnOpen)] "agent-1" 42
  ∧ ("agent-1", ({ wConnOpen with lastSeen := 42 } : Conn))
      ∈ (processMessage [("agent-1", wConnOpen)] "agent-1" 42
          (some { type := "heartbeat" })).registry := by
  have h := parsedFrameTouchBeforeDispatch [("agent-1", wConnOpen)] "agent-1" 42
    { type := "heartbeat" }
  exact ⟨h.1, h.2.1 wConnOpen (by decide)⟩

/-! ## Registry observation theorem -/

lemma regGet_mem (reg : Registry) (nodeId : String) (c : Conn)
    (h : regGet reg nodeId = some c) : (nodeId, c) ∈ reg := by
  induction reg with
  | nil => simp [regGet] at h
  | cons hd tl ih =>
    obtain ⟨k, v⟩ := hd
    by_cases hk : (k == nodeId) = true
    · simp only [regGet, if_pos hk, Option.some.injEq] at h
      rw [List.mem_cons, Prod.mk.injEq]
      exact Or.inl ⟨(eq_of_beq hk).symm, h.symm⟩
    · simp only [regGet, if_neg hk] at h
      exact List.mem_cons_of_mem _ (ih h)

/-- C10: a registry entry whose handle is not OPEN is reported not connected by
`isNodeConnected`, all sends to it fail, and yet `getConnectedNodes` still
lists the node — with `connected: false` — because presence in the registry and
being connected are distinct observable states. -/
theorem registryPresenceVsConnected (reg : Registry) (nodeId : String) (c : Conn)
    (hget : regGet reg nodeId = some c) (hstate : c.readyState ≠ ReadyState.rsOpen) :
    isNodeConnected reg nodeId = false
  ∧ (∀ msg : CommandFrame, sendToNode reg nodeId msg = false)
  ∧ ({ nodeId := nodeId, lastSeen := c.lastSeen, connected := false } : NodeInfo)
      ∈ getConnectedNodes reg := by
  have hbeq : (c.readyState == ReadyState.rsOpen) = false := by
    cases hb : c.readyState == ReadyState.rsOpen
    · rfl
    · exact absurd (eq_of_beq hb) hstate
  refine ⟨?_, ?_, ?_⟩
  · simp [isNodeConnected, hget, hbeq]
  · intro msg
    simp [sendToNode, hget, hbeq]
  · have hm := regGet_mem reg nodeId c hget
    have := List.mem_map_of_mem
      (f := fun p : String × Conn =>
        ({ nodeId := p.1, lastSeen := p.2.lastSeen,
           connected := p.2.readyState == ReadyState.rsOpen } : NodeInfo)) hm
    simpa [getConnectedNodes, hbeq] using this

/-- Witness for C10 at a one-entry registry whose handle is CLOSED. -/
theorem registryPresenceVsConnected_witness :
    isNodeConnected [("agent-1", wConnClosed)] "agent-1" = false
  ∧ sendToNode [("agent-1", wConnClosed)] "agent-1"
      { commandId := "cid-1", command := "status", parameters := "", timestamp := 0 } = false
  ∧ ({ nodeId := "agent-1", lastSeen := 5, connected := false } : NodeInfo)
      ∈ getConnectedNodes [("agent-1", wConnClosed)] := by
  have h := registryPresenceVsConnected [("agent-1", wConnClosed)] "agent-1" wConnClosed
    rfl (by decide)
  exact ⟨h.1,
    h.2.1 { commandId := "cid-1", command := "status", parameters := "", timestamp := 0 },
    h.2.2⟩

end VPS
